import Mathlib

/-!
Verification of claw-runner's external-process orchestration core against its
natural-language specification.

The development shallowly embeds the two Python source files
(src/claw_runner/runner.py and src/claw_runner/config.py) in Lean:

* pure helpers become Lean functions with the source's names;
* interactions with the operating system (PATH lookup via shutil.which,
  os.access, directory listings, environment variables) are threaded through
  an explicit `SysEnv` record of query functions, so that every definition is
  a total, executable function of the environment;
* invocation of external processes is threaded through a `CliWorld` record
  mapping an argv to the (return-code, stdout, stderr) triple `_run` yields;
* JSON values (what Python's json.loads returns) are the inductive `JsonVal`;
  json.loads itself is Python library code, modelled as an abstract field of
  `CliWorld`.

Modelling notes, stated once here and referenced from the definitions:
* Python str.strip / str.lower / str.upper act on the full Unicode tables;
  the model's structural string primitives cover the ASCII range.  Every
  input a theorem below evaluates on is ASCII, where the two agree.
* re's \d and \w are modelled as ASCII digit / word characters, and `$` as
  end of string (Python also lets `$` match before a final newline).
* Path.resolve() is modelled for arguments without `.`/`..` segments or
  symlinks: a relative path is prefixed with the current working directory.
* Exotic Python failure paths that escape the functions under study
  (AttributeError on a non-dict JSON payload, pathlib's RuntimeError on an
  unexpandable ~user) are not modelled; no claim exercises them.
-/

namespace ClawRunner

/-! ### Structural string primitives

Lean core's String functions are position-iterator loops the kernel cannot
evaluate, so the Python string operations the sources use are modelled
structurally over the character list.  Each is named for the Python operation
it stands for. -/

/-- Python str.strip() with no argument: drop whitespace at both ends. -/
def stripList (l : List Char) : List Char :=
  ((l.dropWhile Char.isWhitespace).reverse.dropWhile Char.isWhitespace).reverse

/-- Python str.strip() on a String. -/
def pyStrip (s : String) : String := String.mk (stripList s.data)

/-- ASCII lowering of one character (Python str.lower restricted to ASCII,
see the modelling notes). -/
def pyLowerChar (c : Char) : Char :=
  if 'A' ≤ c && c ≤ 'Z' then Char.ofNat (c.toNat + 32) else c

/-- ASCII raising of one character. -/
def pyUpperChar (c : Char) : Char :=
  if 'a' ≤ c && c ≤ 'z' then Char.ofNat (c.toNat - 32) else c

/-- Python str.lower() (ASCII). -/
def pyLower (s : String) : String := String.mk (s.data.map pyLowerChar)

/-- Python str.upper() (ASCII). -/
def pyUpper (s : String) : String := String.mk (s.data.map pyUpperChar)

/-- Python s.startswith(pre). -/
def startsWithS (s pre : String) : Bool := pre.data.isPrefixOf s.data

/-- The first n characters removed. -/
def dropS (s : String) (n : Nat) : String := String.mk (s.data.drop n)

/-- Longest prefix removed while the predicate holds. -/
def dropWhileS (s : String) (p : Char → Bool) : String := String.mk (s.data.dropWhile p)

/-- Longest prefix kept while the predicate holds. -/
def takeWhileS (s : String) (p : Char → Bool) : String := String.mk (s.data.takeWhile p)

/-- Python s.split(sep) for a one-character separator (n pieces for n-1
separators; [""] on empty input). -/
def splitOnCharList (sep : Char) : List Char → List (List Char)
  | [] => [[]]
  | c :: cs =>
    if c = sep then [] :: splitOnCharList sep cs
    else
      match splitOnCharList sep cs with
      | [] => [[c]]
      | t :: ts => (c :: t) :: ts

/-- Python s.split(sep) on a String, one-character separator. -/
def splitOnChar (sep : Char) (s : String) : List String :=
  (splitOnCharList sep s.data).map String.mk

/-- Python `needle in hay` on character lists (an empty needle is found). -/
def containsList (hay needle : List Char) : Bool :=
  needle.isPrefixOf hay ||
    (match hay with
     | [] => false
     | _ :: t => containsList t needle)

/-- Python `sub in s`. -/
def containsSubstring (s sub : String) : Bool := containsList s.data sub.data

/-- Python s.replace(needle, repl), left to right, non-overlapping, for a
non-empty needle (an empty needle leaves the string unchanged here; the
sources only replace non-empty needles).  The fuel argument (the input's
length) only makes the recursion structural. -/
def replaceFuel (needle repl : List Char) : Nat → List Char → List Char
  | 0, hay => hay
  | fuel + 1, hay =>
    match hay with
    | [] => []
    | c :: t =>
      if needle ≠ [] && needle.isPrefixOf hay then
        repl ++ replaceFuel needle repl fuel (hay.drop needle.length)
      else c :: replaceFuel needle repl fuel t

/-- Python s.replace(needle, repl). -/
def replaceS (s needle repl : String) : String :=
  String.mk (replaceFuel needle.data repl.data s.data.length s.data)

/-- Python int() of a string of decimal digits. -/
def digitsToNat (l : List Char) : Nat :=
  l.foldl (fun acc c => acc * 10 + (c.toNat - 48)) 0

/-- A JSON value as Python's json.loads produces it.  Numbers are modelled as
integers (every number a claim touches is an integer; floats are out of
scope). -/
inductive JsonVal : Type where
  | null : JsonVal
  | bool (b : Bool) : JsonVal
  | num (n : Int) : JsonVal
  | str (s : String) : JsonVal
  | arr (elems : List JsonVal) : JsonVal
  | obj (fields : List (String × JsonVal)) : JsonVal

namespace JsonVal

/-- Is this value Python's None (a JSON null)? -/
def isNull : JsonVal → Bool
  | null => true
  | _ => false

/-- Is this value Python's True (`x is True`)?  Note 1 or "true" is not. -/
def isTrueLit : JsonVal → Bool
  | bool true => true
  | _ => false

/-- Python `x == s` for a string literal s: only a str compares equal. -/
def eqStr (j : JsonVal) (s : String) : Bool :=
  match j with
  | str t => t = s
  | _ => false

/-- Python dict lookup on a parsed-JSON object: json.loads keeps the last of
repeated keys, so the last binding wins.  None on a missing key or a
non-object. -/
def getKey? : JsonVal → String → Option JsonVal
  | obj fields, k => (fields.filter (fun p => p.1 = k)).getLast?.map (fun p => p.2)
  | _, _ => none

/-- Python dict .get(k): None both for a missing key and for a stored null
(both are Python None). -/
def getPy (j : JsonVal) (k : String) : JsonVal :=
  (j.getKey? k).getD JsonVal.null

/-- Python truthiness of a parsed-JSON value. -/
def truthy : JsonVal → Bool
  | null => false
  | bool b => b
  | num n => n != 0
  | str s => s != ""
  | arr elems => !elems.isEmpty
  | obj fields => !fields.isEmpty

/-- Python `a or b` on parsed-JSON values. -/
def pyOr (a b : JsonVal) : JsonVal := if a.truthy then a else b

/-- Python str() of a parsed-JSON scalar.  The repr of a container is not
modelled (no claim feeds a container where the source calls str()); the
stand-in below keeps the function total. -/
def pyStr : JsonVal → String
  | null => "None"
  | bool true => "True"
  | bool false => "False"
  | num n => toString n
  | str s => s
  | arr _ => "<container-repr-not-modelled>"
  | obj _ => "<container-repr-not-modelled>"

end JsonVal

/-- The ambient operating-system state `runner.py` queries, as pure lookup
functions.  One value of this record fixes one machine state. -/
structure SysEnv : Type where
  /-- The home directory, what os.path.expanduser substitutes for a bare `~`. -/
  home : String
  /-- The current working directory, what Path.resolve prefixes to a relative
  path. -/
  cwd : String
  /-- Named-user home directories, for `~user` forms (None: no such user). -/
  userHomes : String → Option String
  /-- shutil.which as wrapped by `_which_or_none`: the resolved PATH entry for
  a program name, or None. -/
  which : String → Option String
  /-- The TERMINAL environment variable; the empty string when unset (the
  source reads `os.environ.get("TERMINAL") or ""`). -/
  terminalVar : String
  /-- Whether ~/.nvm/versions/node exists. -/
  nvmRootExists : Bool
  /-- The entries of ~/.nvm/versions/node that are directories, by name, in
  iteration order of Path.iterdir. -/
  nvmDirs : List String
  /-- Path.exists() on an absolute path. -/
  fileExists : String → Bool
  /-- os.access(path, os.X_OK). -/
  isExec : String → Bool

/-- os.path.expanduser: substitute `~` or `~user` at the front of a path.
Trailing slashes of the substituted home are dropped, and an empty result
becomes "/", as in CPython's posixpath. -/
def expanduser (env : SysEnv) (path : String) : String :=
  if !startsWithS path "~" then path
  else
    let rest := dropS path 1
    let user := takeWhileS rest (fun c => c ≠ '/')
    let tail := dropS rest user.length
    let homeDir : Option String :=
      if user = "" then some env.home else env.userHomes user
    match homeDir with
    | none => path
    | some h =>
      let joined := String.mk (((h.data.reverse.dropWhile (fun c => c = '/'))).reverse) ++ tail
      if joined = "" then "/" else joined

/-- os.path.isabs on posix. -/
def isabs (path : String) : Bool := startsWithS path "/"

/-- Path.resolve(): make a path absolute against the current working
directory (see the modelling notes: `.`/`..` segments and symlinks are out of
scope). -/
def pathResolve (env : SysEnv) (path : String) : String :=
  if isabs path then path else env.cwd ++ "/" ++ path

/-- ResolvedCli from runner.py: the result of `_resolve_cli`. -/
structure ResolvedCli : Type where
  path : String
  found : Bool
  /-- What the user configured (or default), for nicer errors. -/
  configured : String
deriving DecidableEq

/-- The `^v(\d+)\.(\d+)\.(\d+)$` match of `_parse_semver_from_nvm_dirname`:
some (major, minor, patch) when the directory name matches, none otherwise. -/
def semverMatch? (name : String) : Option (Nat × Nat × Nat) :=
  if startsWithS name "v" then
    match splitOnChar '.' (dropS name 1) with
    | [a, b, c] =>
      if a ≠ "" && a.data.all Char.isDigit && b ≠ "" && b.data.all Char.isDigit
          && c ≠ "" && c.data.all Char.isDigit then
        some (digitsToNat a.data, digitsToNat b.data, digitsToNat c.data)
      else none
    | _ => none
  else none

/-- runner.py `_parse_semver_from_nvm_dirname`: nvm uses names like v22.14.0;
a name that does not match parses as (0, 0, 0). -/
def _parse_semver_from_nvm_dirname (name : String) : Nat × Nat × Nat :=
  (semverMatch? name).getD (0, 0, 0)

/-- Strict lexicographic order on version triples: how Python compares
(major, minor, patch) tuples. -/
def verLt (a b : Nat × Nat × Nat) : Prop :=
  a.1 < b.1 ∨ (a.1 = b.1 ∧ (a.2.1 < b.2.1 ∨ (a.2.1 = b.2.1 ∧ a.2.2 < b.2.2)))

instance : DecidableRel verLt := fun a b => by
  unfold verLt; infer_instance

/-- Non-strict companion of `verLt`. -/
def verLe (a b : Nat × Nat × Nat) : Prop := ¬ verLt b a

instance : DecidableRel verLe := fun a b => by
  unfold verLe; infer_instance

/-- The candidate-name list of `_resolve_cli` step 3: the primary name, then
the fixed aliases that differ from it. -/
def candidateNames (primary : String) : List String :=
  [primary] ++ (["clawdbot", "moltbot", "openclaw"].filter (fun n => n ≠ primary))

/-- The PATH scan of `_resolve_cli`: first candidate name for which
`_which_or_none` yields a truthy (non-empty) result. -/
def firstWhich (env : SysEnv) : List String → Option String
  | [] => none
  | n :: ns =>
    match env.which n with
    | some p => if p ≠ "" then some p else firstWhich env ns
    | none => firstWhich env ns

/-- The nvm scan of `_resolve_cli`: every (version, path) hit under
~/.nvm/versions/node/<dir>/bin/<name>, directories in iteration order, names
in candidate order, kept when the file exists and is executable. -/
def nvmHits (env : SysEnv) (names : List String) : List ((Nat × Nat × Nat) × String) :=
  if env.nvmRootExists then
    env.nvmDirs.flatMap (fun d =>
      names.filterMap (fun n =>
        let p := env.home ++ "/.nvm/versions/node/" ++ d ++ "/bin/" ++ n
        if env.fileExists p && env.isExec p then
          some (_parse_semver_from_nvm_dirname d, p)
        else none))
  else []

/-- Insert a hit into a list already sorted by version descending, after every
element whose version is not strictly smaller.  Folded over the hit list this
computes Python's stable `list.sort(key=version, reverse=True)`: a stable sort
under a total preorder is unique, so any stable implementation agrees with
Timsort. -/
def insertHitDesc (h : (Nat × Nat × Nat) × String) :
    List ((Nat × Nat × Nat) × String) → List ((Nat × Nat × Nat) × String)
  | [] => [h]
  | y :: ys => if verLt h.1 y.1 then y :: insertHitDesc h ys else h :: y :: ys

/-- Stable descending sort by version, `nvm_hits.sort(key=..., reverse=True)`. -/
def sortHitsDesc : List ((Nat × Nat × Nat) × String) → List ((Nat × Nat × Nat) × String)
  | [] => []
  | h :: hs => insertHitDesc h (sortHitsDesc hs)

/-- The common-locations scan of `_resolve_cli`: directory-major, then
candidate names, first existing executable wins. -/
def commonHit (env : SysEnv) (names : List String) : Option String :=
  [env.home ++ "/.local/bin", "/usr/local/bin", "/usr/bin"].findSome? (fun d =>
    names.findSome? (fun n =>
      let p := d ++ "/" ++ n
      if env.fileExists p && env.isExec p then some p else none))

/-- The configured reference after the defaulting at the top of
`_resolve_cli`: `(cli or "").strip() or "clawdbot"` — the stripped input, or
the default name when blank. -/
def configuredOf (cli : String) : String :=
  if pyStrip cli = "" then "clawdbot" else pyStrip cli

/-- runner.py `_resolve_cli`: resolve the configured CLI binary robustly.
Absolute path: trusted verbatim.  Relative path with a slash:
Path(expanded).expanduser().resolve() then the executable check.  Bare name:
PATH, then nvm installs (newest version first), then common locations;
found=false with the primary name when nothing matched. -/
def _resolve_cli (env : SysEnv) (cli : String) : ResolvedCli :=
  let configured := configuredOf cli
  let expanded := expanduser env configured
  if isabs expanded then
    { path := expanded, found := env.isExec expanded, configured := configured }
  else if expanded.data.contains '/' && !isabs expanded then
    let p := pathResolve env (expanduser env expanded)
    { path := p, found := env.isExec p, configured := configured }
  else
    let primary := expanded
    let names := candidateNames primary
    match firstWhich env names with
    | some found => { path := found, found := true, configured := configured }
    | none =>
      match (sortHitsDesc (nvmHits env names)).head? with
      | some best => { path := best.2, found := true, configured := configured }
      | none =>
        match commonHit env names with
        | some p => { path := p, found := true, configured := configured }
        | none => { path := primary, found := false, configured := configured }

/-! ## Terminal command synthesis -/

/-- The characters shlex treats as token separators (' \t\r\n'). -/
def shlexWs (c : Char) : Bool :=
  c = ' ' || c = '\t' || c = '\r' || c = '\n'

/-- The lexer states of shlex in posix mode with whitespace_split. -/
inductive ShlexState : Type where
  | between : ShlexState
  | word : ShlexState
  | inSingle : ShlexState
  | inDouble : ShlexState
  | escWord : ShlexState
  | escDouble : ShlexState

/-- One pass of shlex.split (posix mode, whitespace_split=True): quotes group,
a backslash escapes the next character, and inside double quotes it escapes
only the double quote and itself.  On input ending inside a quote or escape
the source raises ValueError (uncaught); the model emits the pending token —
no claim feeds malformed input. -/
def shlexRun (st : ShlexState) (tok : Option String) : List Char → List String
  | [] => match tok with | some t => [t] | none => []
  | c :: cs =>
    match st with
    | .between =>
      if shlexWs c then shlexRun .between none cs
      else if c = '\x27' then shlexRun .inSingle (some "") cs
      else if c = '"' then shlexRun .inDouble (some "") cs
      else if c = '\\' then shlexRun .escWord (some "") cs
      else shlexRun .word (some (String.mk [c])) cs
    | .word =>
      let t := tok.getD ""
      if shlexWs c then t :: shlexRun .between none cs
      else if c = '\x27' then shlexRun .inSingle (some t) cs
      else if c = '"' then shlexRun .inDouble (some t) cs
      else if c = '\\' then shlexRun .escWord (some t) cs
      else shlexRun .word (some (t.push c)) cs
    | .inSingle =>
      let t := tok.getD ""
      if c = '\x27' then shlexRun .word (some t) cs
      else shlexRun .inSingle (some (t.push c)) cs
    | .inDouble =>
      let t := tok.getD ""
      if c = '"' then shlexRun .word (some t) cs
      else if c = '\\' then shlexRun .escDouble (some t) cs
      else shlexRun .inDouble (some (t.push c)) cs
    | .escWord => shlexRun .word (some ((tok.getD "").push c)) cs
    | .escDouble =>
      let t := tok.getD ""
      if c = '"' || c = '\\' then shlexRun .inDouble (some (t.push c)) cs
      else shlexRun .inDouble (some ((t.push '\\').push c)) cs

/-- shlex.split in posix mode, as used by `_split_cmd`. -/
def shlexSplit (s : String) : List String := shlexRun .between none s.data

/-- runner.py `_split_cmd`: shlex.split handles quoted terminal command
strings from config.json. -/
def _split_cmd (cmd : String) : List String :=
  if pyStrip cmd ≠ "" then shlexSplit cmd else []

/-- A character shlex.quote leaves unquoted: ASCII word characters and
@ % + = : , . / - . -/
def shlexSafeChar (c : Char) : Bool :=
  (c.isAlphanum && c.toNat < 128) || c = '_' || c = '@' || c = '%' || c = '+'
    || c = '=' || c = ':' || c = ',' || c = '.' || c = '/' || c = '-'

/-- shlex.quote: a shell-safe single argument. -/
def shlexQuote (s : String) : String :=
  if s = "" then "\x27\x27"
  else if s.data.all shlexSafeChar then s
  else "\x27" ++ replaceS s "\x27" "\x27\"\x27\"\x27" ++ "\x27"

/-- Python `sub in s` for a non-empty needle. -/
def containsSub (s sub : String) : Bool := containsSubstring s sub

/-- os.path.basename on posix: the part after the last slash. -/
def basename (p : String) : String := ((splitOnChar '/' p).getLast?).getD ""

/-- The autodetection loop of `_resolve_terminal`: the first candidate NAME
for which `_which_or_none` is truthy ("" when none is). -/
def firstWhichName (env : SysEnv) : List String → String
  | [] => ""
  | n :: ns =>
    match env.which n with
    | some p => if p ≠ "" then n else firstWhichName env ns
    | none => firstWhichName env ns

/-- runner.py `_resolve_terminal`: the preferred terminal command string (may
include args).  Precedence: config.json terminal, then $TERMINAL, then
autodetection of common terminals; "" when none is found. -/
def _resolve_terminal (env : SysEnv) (config_terminal : String) : String :=
  if pyStrip config_terminal ≠ "" then pyStrip config_terminal
  else
    let env_terminal := pyStrip env.terminalVar
    if env_terminal ≠ "" then env_terminal
    else
      firstWhichName env ["x-terminal-emulator", "kitty", "alacritty", "konsole",
        "gnome-terminal", "xterm"]

/-- runner.py `_terminal_argv`: build argv to run a shell command inside a
terminal and keep it open.  A "{cmd}" placeholder in the configured string is
substituted as a single quoted shell argument; otherwise the emulator is
dispatched on its base name, defaulting to the generic -e convention. -/
def _terminal_argv (terminal_cmd shell_cmd : String) : List String :=
  if pyStrip terminal_cmd = "" then []
  else if containsSub terminal_cmd "{cmd}" then
    _split_cmd (replaceS terminal_cmd "{cmd}" (shlexQuote shell_cmd))
  else
    match _split_cmd terminal_cmd with
    | [] => []
    | t0 :: rest =>
      let term := t0 :: rest
      let exe := basename t0
      if exe = "kitty" then term ++ ["--hold", "sh", "-lc", shell_cmd]
      else if exe = "konsole" then term ++ ["--hold", "-e", "sh", "-lc", shell_cmd]
      else if exe = "gnome-terminal" then term ++ ["--", "bash", "-lc", shell_cmd]
      else if exe = "xterm" then term ++ ["-hold", "-e", "sh", "-lc", shell_cmd]
      else term ++ ["-e", "sh", "-lc", shell_cmd]

/-! ## Status normalization -/

/-- Python s.split()[0] for a stripped non-empty s: the first
whitespace-delimited word. -/
def firstWord (s : String) : String := takeWhileS s (fun c => !c.isWhitespace)

/-- The `normalize_chan_state` closure of `_status_summary`, on the Python
value `raw` (here a parsed-JSON value; the "" fed for a falsy raw is the
str path of `str(raw or "")`).  Empty maps to "?", a fixed vocabulary maps
the first word to OK or DOWN, anything else is the uppercased first word. -/
def normalize_chan_state (raw : JsonVal) : String :=
  let s := pyStrip (if raw.truthy then raw.pyStr else "")
  if s = "" then "?"
  else
    let word := pyLower (firstWord s)
    if word = "ok" || word = "up" || word = "reachable" || word = "running"
        || word = "connected" || word = "configured" || word = "linked" then "OK"
    else if word = "down" || word = "error" || word = "missing"
        || word = "unlinked" || word = "disconnected" then "DOWN"
    else pyUpper word

/-- Python line.split(":", 1)[1]: everything after the first colon. -/
def afterFirstColon (s : String) : String :=
  dropS (dropWhileS s (fun c => c ≠ ':')) 1

/-- The per-channel-objects pass of `_status_summary` (lines 543-553): walk
the channels list, skip non-dicts, read the name from "channel" or "name"
(lowercased) and the state from "state" or "status"; both telegram and
whatsapp slots are overwritten each time their name matches.  A non-string
truthy name would raise AttributeError in the source; modelled as "" (no
claim exercises it). -/
def channelsPass (channels : JsonVal) (tg wa : String) : String × String :=
  match channels with
  | .arr l =>
    l.foldl (fun (acc : String × String) c =>
      match c with
      | .obj _ =>
        let nameV := JsonVal.pyOr (c.getPy "channel") (c.getPy "name")
        let c_name := match (if nameV.truthy then nameV else .str "") with
          | .str s => pyLower s
          | _ => ""
        let state := normalize_chan_state (JsonVal.pyOr (c.getPy "state") (c.getPy "status"))
        let acc := if c_name = "telegram" then (state, acc.2) else acc
        let acc := if c_name = "whatsapp" then (acc.1, state) else acc
        acc
      | _ => acc) (tg, wa)
  | _ => (tg, wa)

/-- The channelSummary pass of `_status_summary` (lines 556-564): for each
string line, a "Telegram:"/"WhatsApp:" prefix REASSIGNS that channel's state
from the text after the colon — unconditionally, whether or not an earlier
pass already resolved it. -/
def channelSummaryPass (summary : JsonVal) (tg wa : String) : String × String :=
  match summary with
  | .arr lines =>
    lines.foldl (fun (acc : String × String) line =>
      match line with
      | .str s =>
        let acc := if startsWithS s "Telegram:" then
            (normalize_chan_state (.str (afterFirstColon s)), acc.2) else acc
        let acc := if startsWithS s "WhatsApp:" then
            (acc.1, normalize_chan_state (.str (afterFirstColon s))) else acc
        acc
      | _ => acc) (tg, wa)
  | _ => (tg, wa)

/-- The linkChannel pass of `_status_summary` (lines 567-570): a dict whose
id equals "whatsapp" and whose linked flag is the literal True sets the
whatsapp state to OK — also when an earlier pass resolved it to DOWN. -/
def linkChannelPass (link_channel : JsonVal) (wa : String) : String :=
  match link_channel with
  | .obj _ =>
    if (link_channel.getPy "id").eqStr "whatsapp" then
      (if (link_channel.getPy "linked").isTrueLit then "OK" else wa)
    else wa
  | _ => wa

/-- The session-count extraction of `_status_summary` (lines 572-579):
sessions.active, then sessions.count, then the top-level sessionCount; a
JSON null counts as absent at each step, exactly as Python's None does. -/
def sessionCountOf (data : JsonVal) : JsonVal :=
  let sessions := data.getPy "sessions"
  match sessions with
  | .obj _ =>
    let c := sessions.getPy "active"
    let c := if c.isNull then sessions.getPy "count" else c
    if c.isNull then data.getPy "sessionCount" else c
  | _ => data.getPy "sessionCount"

/-- The final rendering of `_status_summary`: fixed-order parts joined by
" · ".  isinstance(session_count, int) is true for Python bools too, hence
the bool arm. -/
def renderParts (gateway_ok : Bool) (tg wa : String) (session_count : JsonVal) : String :=
  let parts := [if gateway_ok then "Gateway OK" else "Gateway DOWN",
    "TG " ++ tg, "WA " ++ wa]
  let parts := match session_count with
    | .num n => parts ++ ["Sessions " ++ toString n]
    | .bool b => parts ++ ["Sessions " ++ (if b then "True" else "False")]
    | _ => parts
  String.intercalate " · " parts

/-- The structured branch of `_status_summary` (lines 516-588), applied to a
successfully parsed JSON status record. -/
def summarizeJson (data : JsonVal) : String :=
  let gatewayRaw := data.getPy "gateway"
  let gateway := if gatewayRaw.truthy then gatewayRaw else .obj []
  let gateway_state := gateway.getPy "state"
  let gateway_state := if gateway_state.isNull then gateway.getPy "reachable" else gateway_state
  let gateway_ok := gateway_state.isTrueLit
    || (match gateway_state with
        | .str s => pyLower s = "ok" || pyLower s = "up" || pyLower s = "reachable"
            || pyLower s = "running"
        | _ => false)
  let channelsA := data.getPy "channels"
  let channels := if channelsA.truthy then channelsA
    else (if (data.getPy "channelStatus").truthy then data.getPy "channelStatus" else .arr [])
  let (tg, wa) := channelsPass channels "?" "?"
  let (tg, wa) := channelSummaryPass (data.getPy "channelSummary") tg wa
  let wa := linkChannelPass (data.getPy "linkChannel") wa
  renderParts gateway_ok tg wa (sessionCountOf data)

/-- One line of `_parse_status_text.find_state`: the case-insensitive match
of the pattern  optional-whitespace label optional-whitespace colon value  on
a whole line, the value (at least one character, here returned stripped)
running to the end of the line. -/
def lineStateValue (label line : String) : Option String :=
  let l := dropWhileS line Char.isWhitespace
  if startsWithS (pyLower l) (pyLower label) then
    let rest := dropWhileS (dropS l label.length) Char.isWhitespace
    if startsWithS rest ":" then
      let v := dropS rest 1
      if v = "" then none else some (pyStrip v)
    else none
  else none

/-- `find_state`: the first line of the text that matches.  (A value of only
blanks strips to ""; falsiness downstream treats that as a miss, as in the
source.) -/
def find_state (label text : String) : Option String :=
  (splitOnChar '\n' text).findSome? (lineStateValue label)

/-- Python `a or b` on the Option String results of find_state: "" is falsy. -/
def pyOrStr (a b : Option String) : Option String :=
  match a with
  | some s => if s = "" then b else a
  | none => b

/-- One line of the Sessions pattern  optional-whitespace "Sessions"
optional-whitespace colon optional-whitespace digits word-boundary ,
case-insensitively. -/
def lineSessions (line : String) : Option Nat :=
  let l := dropWhileS line Char.isWhitespace
  if startsWithS (pyLower l) "sessions" then
    let rest := dropWhileS (dropS l 8) Char.isWhitespace
    if startsWithS rest ":" then
      let rest := dropWhileS (dropS rest 1) Char.isWhitespace
      let digits := takeWhileS rest Char.isDigit
      let after := dropS rest digits.length
      let boundary := match after.data with
        | [] => true
        | c :: _ => !(c.isAlphanum || c = '_')
      if digits ≠ "" && boundary then some (digitsToNat digits.data) else none
    else none
  else none

/-- The canonical record `_parse_status_text` builds: each value as the
defensive line parser found it (None when no line matched). -/
structure ParsedStatus : Type where
  gateway : Option String
  telegram : Option String
  whatsapp : Option String
  sessions : Option Nat
deriving DecidableEq

/-- runner.py `_parse_status_text`: defensive parsing for unknown CLI
formats, matching "Label: value" lines for Gateway/gateway, Telegram/TG,
WhatsApp/WA and a numeric Sessions line. -/
def _parse_status_text (text : String) : ParsedStatus :=
  { gateway := pyOrStr (find_state "Gateway" text) (find_state "gateway" text)
    telegram := pyOrStr (find_state "Telegram" text) (find_state "TG" text)
    whatsapp := pyOrStr (find_state "WhatsApp" text) (find_state "WA" text)
    sessions := (splitOnChar '\n' text).findSome? lineSessions }

/-- The cell matcher inside `table_state`: right after a box-drawing bar,
optional whitespace, a non-empty run of uppercase A-Z, optional whitespace,
then the closing bar; the run is the captured state. -/
def cellMatch (cs : List Char) : Option String :=
  let rest := cs.dropWhile (fun c => c.isWhitespace)
  let caps := rest.takeWhile (fun c => 'A' ≤ c && c ≤ 'Z')
  let after := (rest.drop caps.length).dropWhile (fun c => c.isWhitespace)
  if caps ≠ [] && after.head? = some '│' then some (String.mk caps) else none

/-- The lazy  .*?│ non-greedy scan of `table_state`: the earliest later cell
on the line holding only uppercase letters. -/
def scanCells : List Char → Option String
  | [] => none
  | c :: rest =>
    if c = '│' then
      match cellMatch rest with
      | some g => some g
      | none => scanCells rest
    else scanCells rest

/-- One line of `table_state` (lines 605-609): a line starting with a
box-drawing bar, whitespace, the label (exact case), whitespace, a bar, and
then somewhere to its right a cell of uppercase letters. -/
def tableRowState (label line : String) : Option String :=
  match line.data with
  | c :: cs =>
    if c = '│' then
      let r1 := cs.dropWhile (fun ch => ch.isWhitespace)
      if label.data.isPrefixOf r1 then
        let r2 := (r1.drop label.length).dropWhile (fun ch => ch.isWhitespace)
        match r2 with
        | b :: r3 => if b = '│' then scanCells r3 else none
        | [] => none
      else none
    else none
  | [] => none

/-- `table_state`: the first line of the output with a matching table row. -/
def table_state (label out : String) : Option String :=
  (splitOnChar '\n' out).findSome? (tableRowState label)

/-- The plain-text branch of `_status_summary` (lines 596-621), applied to
the stdout of a zero-exit plain `status` invocation: Label: value lines first
(gateway normalized through a fixed truthy vocabulary, channels uppercased
VERBATIM), then — if a channel is still "?" — the table extraction. -/
def summarizeText (out : String) : String :=
  let parsed := _parse_status_text out
  let gateway_raw := pyStrip (parsed.gateway.getD "")
  let gl := pyLower gateway_raw
  let gateway_ok := gl = "ok" || gl = "up" || gl = "running" || gl = "reachable" || gl = "true"
  let tg := pyUpper (pyStrip (match parsed.telegram with
    | some s => if s = "" then "?" else s
    | none => "?"))
  let wa := pyUpper (pyStrip (match parsed.whatsapp with
    | some s => if s = "" then "?" else s
    | none => "?"))
  let (tg, wa) := if tg = "?" || wa = "?" then
      ((table_state "Telegram" out).getD tg, (table_state "WhatsApp" out).getD wa)
    else (tg, wa)
  let parts := [if gateway_ok then "Gateway OK" else "Gateway DOWN",
    "TG " ++ tg, "WA " ++ wa]
  let parts := match parsed.sessions with
    | some n => parts ++ ["Sessions " ++ toString n]
    | none => parts
  String.intercalate " · " parts

/-! ## External process invocation -/

/-- What can happen when `_run` invokes subprocess.run: normal completion
(with the process's own return code), expiry of the timeout (TimeoutExpired
carries whatever output was captured, possibly none), or a spawn failure such
as FileNotFoundError. -/
inductive RunOutcome : Type where
  | completed (returncode : Int) (stdout stderr : String) : RunOutcome
  | timedOut (stdout stderr : Option String) : RunOutcome
  | spawnFailure (message : String) : RunOutcome

/-- runner.py `_run`: the (returncode, stdout, stderr) triple the caller sees
for each outcome.  A timeout becomes (124, captured stdout or "", captured
stderr or "Timed out"); a spawn failure becomes (127, "", str(e)). -/
def _run : RunOutcome → Int × String × String
  | .completed rc out err => (rc, out, err)
  | .timedOut out err => (124, out.getD "", err.getD "Timed out")
  | .spawnFailure msg => (127, "", msg)

/-- Every timeout_s passed to `_run` in runner.py, in source order: the
declared default 2.0; 8.0 for each of the two JSON status attempts; 4.0 for
the plain status fallback; 1.5 for the status --all probe in Run; 8.0 in
`_systemctl_user`. -/
def runTimeouts : List ℚ := [2, 8, 8, 4, 1.5, 8]

/-- The external world `_status_summary` interacts with: what `_run` returns
for an argv, and what json.loads (Python library code, abstracted here)
yields for a stdout text — None when it raises. -/
structure CliWorld : Type where
  run : List String → Int × String × String
  jsonLoads : String → Option JsonVal

/-- The JSON-attempt loop of `_status_summary` (lines 502-514): the first
invocation form that exits zero with non-blank stdout that parses as JSON.
A nonzero exit, blank output or parse failure falls through to the next
form. -/
def tryStructured (w : CliWorld) : List (List String) → Option JsonVal
  | [] => none
  | args :: rest =>
    let r := w.run args
    if r.1 ≠ 0 || pyStrip r.2.1 = "" then tryStructured w rest
    else
      match w.jsonLoads r.2.1 with
      | some data => some data
      | none => tryStructured w rest

/-- runner.py `_status_summary`: the fixed not-found message when resolution
failed (no invocation happens); otherwise the two JSON forms are attempted
and summarized, and failing those the plain `status` output is line-parsed —
a nonzero plain exit degrades to "Status: <stderr or stdout or
unavailable>". -/
def _status_summary (cli_info : ResolvedCli) (w : CliWorld) : String :=
  if cli_info.found = false then
    "CLI not found (clawdbot). Set 'cli' in ~/.config/claw-runner/config.json"
  else
    let cli := cli_info.path
    match tryStructured w [[cli, "status", "--json"], [cli, "status", "--format", "json"]] with
    | some data => summarizeJson data
    | none =>
      let r := w.run [cli, "status"]
      if r.1 ≠ 0 then
        let msg := if pyStrip r.2.2 ≠ "" then pyStrip r.2.2
          else if pyStrip r.2.1 ≠ "" then pyStrip r.2.1 else "unavailable"
        "Status: " ++ msg
      else summarizeText r.2.1

/-! ## Configuration loading (config.py) -/

/-- config.py Config: the immutable configuration record with its built-in
defaults. -/
structure Config : Type where
  dashboard_url : String := "http://127.0.0.1:18789/"
  cli : String := "clawdbot"
  gateway_service : String := "clawdbot-gateway.service"
  daemon_service : String := "clawdbot-browser.service"
  terminal : String := ""
deriving DecidableEq

/-- config.py `pick`: the value of the first key present in the parsed file,
even when that value is null or of the wrong type; None when no key is
present. -/
def pick (data : JsonVal) : List String → Option JsonVal
  | [] => none
  | k :: ks => if (data.getKey? k).isSome then data.getKey? k else pick data ks

/-- The states ~/.config/claw-runner/config.json can be in when load_config
runs: missing, unreadable or unparseable (read_text or json.loads raises,
caught by the blanket except), or parsed to a JSON value. -/
inductive ConfigSource : Type where
  | absent : ConfigSource
  | readOrParseFailure : ConfigSource
  | parsed (data : JsonVal) : ConfigSource

/-- The first guarded rebuild of load_config:
`if isinstance(dashboard_url, str) and dashboard_url.strip(): cfg = Config(dashboard_url=..., ...)`. -/
def setDashboard (v : Option JsonVal) (cfg : Config) : Config :=
  match v with
  | some (.str s) =>
    if pyStrip s ≠ "" then
      { dashboard_url := pyStrip s, cli := cfg.cli,
        gateway_service := cfg.gateway_service,
        daemon_service := cfg.daemon_service, terminal := cfg.terminal }
    else cfg
  | _ => cfg

/-- The second guarded rebuild of load_config, for the cli field. -/
def setCli (v : Option JsonVal) (cfg : Config) : Config :=
  match v with
  | some (.str s) =>
    if pyStrip s ≠ "" then
      { dashboard_url := cfg.dashboard_url, cli := pyStrip s,
        gateway_service := cfg.gateway_service,
        daemon_service := cfg.daemon_service, terminal := cfg.terminal }
    else cfg
  | _ => cfg

/-- The third guarded rebuild of load_config, for gateway_service. -/
def setGateway (v : Option JsonVal) (cfg : Config) : Config :=
  match v with
  | some (.str s) =>
    if pyStrip s ≠ "" then
      { dashboard_url := cfg.dashboard_url, cli := cfg.cli,
        gateway_service := pyStrip s,
        daemon_service := cfg.daemon_service, terminal := cfg.terminal }
    else cfg
  | _ => cfg

/-- The fourth guarded rebuild of load_config, for daemon_service. -/
def setDaemon (v : Option JsonVal) (cfg : Config) : Config :=
  match v with
  | some (.str s) =>
    if pyStrip s ≠ "" then
      { dashboard_url := cfg.dashboard_url, cli := cfg.cli,
        gateway_service := cfg.gateway_service,
        daemon_service := pyStrip s, terminal := cfg.terminal }
    else cfg
  | _ => cfg

/-- The fifth guarded rebuild of load_config, for terminal. -/
def setTerminal (v : Option JsonVal) (cfg : Config) : Config :=
  match v with
  | some (.str s) =>
    if pyStrip s ≠ "" then
      { dashboard_url := cfg.dashboard_url, cli := cfg.cli,
        gateway_service := cfg.gateway_service,
        daemon_service := cfg.daemon_service, terminal := pyStrip s }
    else cfg
  | _ => cfg

/-- config.py `load_config`: defaults when the file is absent or unreadable;
otherwise each field is replaced by the picked value only when that value is
a non-blank string, taking its stripped form, through the source's five
successive guarded Config(...) rebuilds.  A non-object top level ends in the
defaults (pick finds no key on an array; on a string or number the membership
test or .get raises and the blanket except returns Config()). -/
def load_config : ConfigSource → Config
  | .absent => {}
  | .readOrParseFailure => {}
  | .parsed data =>
    match data with
    | .obj _ =>
      setTerminal (pick data ["terminal"])
        (setDaemon (pick data ["daemonService", "daemon_service"])
          (setGateway (pick data ["gatewayService", "gateway_service"])
            (setCli (pick data ["cli", "binary", "command"])
              (setDashboard (pick data ["dashboardUrl", "dashboard_url"]) {}))))
    | _ => {}

/-! ## Concrete machine states and worlds used by the closed theorems -/

/-- A machine with nothing installed: PATH, nvm and the common directories
are all empty, no TERMINAL variable, and the home and working directories
differ. -/
def noCliEnv : SysEnv :=
  { home := "/home/u", cwd := "/work", userHomes := fun _ => none,
    which := fun _ => none, terminalVar := "", nvmRootExists := false,
    nvmDirs := [], fileExists := fun _ => false, isExec := fun _ => false }

/-- A machine whose only executables are clawdbot binaries under three nvm
version directories — a semver-named old one, an unparseable "current", and a
semver-named newest one. -/
def nvmEnv : SysEnv :=
  { home := "/h", cwd := "/h", userHomes := fun _ => none,
    which := fun _ => none, terminalVar := "", nvmRootExists := true,
    nvmDirs := ["v1.2.3", "current", "v10.0.0"],
    fileExists := fun p =>
      p = "/h/.nvm/versions/node/v1.2.3/bin/clawdbot"
        || p = "/h/.nvm/versions/node/current/bin/clawdbot"
        || p = "/h/.nvm/versions/node/v10.0.0/bin/clawdbot",
    isExec := fun p =>
      p = "/h/.nvm/versions/node/v1.2.3/bin/clawdbot"
        || p = "/h/.nvm/versions/node/current/bin/clawdbot"
        || p = "/h/.nvm/versions/node/v10.0.0/bin/clawdbot" }

/-- The structured status record of the spec's worked example:
gateway state ok, telegram up, whatsapp down, 3 active sessions. -/
def c2Json : JsonVal :=
  .obj [("gateway", .obj [("state", .str "ok")]),
    ("channels", .arr [.obj [("channel", .str "telegram"), ("state", .str "up")],
      .obj [("channel", .str "whatsapp"), ("state", .str "down")]]),
    ("sessions", .obj [("active", .num 3)])]

/-- The plain-text status output of the spec's worked example. -/
def c2Text : String := "Gateway: OK\nTelegram: UP\nWhatsApp: DOWN\nSessions: 2\n"

/-- A world where the first JSON form succeeds and parses to `c2Json`
(json.loads abstracted: the payload marker maps to the record). -/
def c2StructWorld : CliWorld :=
  { run := fun args =>
      if args = ["/usr/local/bin/clawdbot", "status", "--json"] then
        (0, "json-status-payload", "")
      else (1, "", ""),
    jsonLoads := fun s => if s = "json-status-payload" then some c2Json else none }

/-- A world with no structured form available: both JSON forms exit nonzero,
the plain form prints `c2Text`, and nothing parses as JSON. -/
def c2TextWorld : CliWorld :=
  { run := fun args =>
      if args = ["/usr/local/bin/clawdbot", "status"] then (0, c2Text, "")
      else (1, "", "unrecognized option"),
    jsonLoads := fun _ => none }

/-- The claim-side reading of one load_config field: the field takes the
picked file value exactly when that value is a non-blank string (then its
stripped form), and otherwise keeps the built-in default. -/
def fieldFromFile (picked : Option JsonVal) (dflt result : String) : Prop :=
  (∃ s, picked = some (JsonVal.str s) ∧ pyStrip s ≠ "" ∧ result = pyStrip s)
  ∨ (result = dflt ∧ ∀ s, picked = some (JsonVal.str s) → pyStrip s = "")

/-! ## Helper lemmas on the version order and the stable descending sort -/

theorem verLt_irrefl (a : Nat × Nat × Nat) : ¬ verLt a a := by
  unfold verLt; omega

theorem verLe_refl (a : Nat × Nat × Nat) : verLe a a := verLt_irrefl a

theorem verLe_of_verLt {a b : Nat × Nat × Nat} (h : verLt a b) : verLe a b := by
  unfold verLe verLt at *; omega

theorem verLe_trans {a b c : Nat × Nat × Nat} (h1 : verLe a b) (h2 : verLe b c) :
    verLe a c := by
  unfold verLe verLt at *; omega

theorem insertHitDesc_ne_nil (h : (Nat × Nat × Nat) × String)
    (l : List ((Nat × Nat × Nat) × String)) : insertHitDesc h l ≠ [] := by
  cases l with
  | nil => simp [insertHitDesc]
  | cons y ys =>
    unfold insertHitDesc
    split <;> simp

theorem sortHitsDesc_nil_iff (l : List ((Nat × Nat × Nat) × String)) :
    sortHitsDesc l = [] ↔ l = [] := by
  cases l with
  | nil => simp [sortHitsDesc]
  | cons x xs =>
    simp only [sortHitsDesc]
    exact ⟨fun h => absurd h (insertHitDesc_ne_nil x (sortHitsDesc xs)), fun h => by simp at h⟩

theorem head_sortHitsDesc (l : List ((Nat × Nat × Nat) × String))
    (b : (Nat × Nat × Nat) × String) (hb : (sortHitsDesc l).head? = some b) :
    ∃ pre post, l = pre ++ b :: post
      ∧ (∀ h ∈ l, verLe h.1 b.1) ∧ ∀ h ∈ pre, verLt h.1 b.1 := by
  induction l generalizing b with
  | nil => simp [sortHitsDesc] at hb
  | cons x xs ih =>
    simp only [sortHitsDesc] at hb
    rcases hsort : sortHitsDesc xs with _ | ⟨y, ys⟩
    · have hxs : xs = [] := (sortHitsDesc_nil_iff xs).mp hsort
      rw [hsort] at hb
      simp only [insertHitDesc, List.head?] at hb
      obtain rfl : x = b := by injection hb
      subst hxs
      refine ⟨[], [], rfl, ?_, by simp⟩
      intro h hh
      simp only [List.mem_singleton] at hh
      subst hh
      exact verLe_refl _
    · rw [hsort] at hb
      by_cases hlt : verLt x.1 y.1
      · have hins : insertHitDesc x (y :: ys) = y :: insertHitDesc x ys := by
          simp [insertHitDesc, hlt]
        rw [hins] at hb
        simp only [List.head?] at hb
        obtain rfl : y = b := by injection hb
        obtain ⟨pre, post, hsplit, hmax, hpre⟩ := ih y (by rw [hsort]; rfl)
        refine ⟨x :: pre, post, by rw [hsplit]; rfl, ?_, ?_⟩
        · intro h hh
          rcases List.mem_cons.mp hh with hh | hh
          · subst hh; exact verLe_of_verLt hlt
          · exact hmax h hh
        · intro h hh
          rcases List.mem_cons.mp hh with hh | hh
          · subst hh; exact hlt
          · exact hpre h hh
      · have hins : insertHitDesc x (y :: ys) = x :: y :: ys := by
          simp [insertHitDesc, hlt]
        rw [hins] at hb
        simp only [List.head?] at hb
        obtain rfl : x = b := by injection hb
        obtain ⟨pre, post, hsplit, hmax, hpre⟩ := ih y (by rw [hsort]; rfl)
        refine ⟨[], xs, rfl, ?_, by simp⟩
        intro h hh
        rcases List.mem_cons.mp hh with hh | hh
        · subst hh; exact verLe_refl _
        · exact verLe_trans (hmax h hh) hlt

/-! ## The claims -/

/-- C6: whenever the version-manager scan is reached (bare name, PATH
misses) and collects at least one (version, path) hit, `_resolve_cli`
returns the hit with the lexicographically greatest parsed version tuple,
ties broken by the hit discovered first (every earlier hit has a strictly
smaller version); a directory name that does not match the semver pattern
parses as (0,0,0), the least version — lowest priority, never
disqualifying. -/
theorem c6_nvm_greatest_version (env : SysEnv) (cli : String)
    (hna : isabs (expanduser env (configuredOf cli)) = false)
    (hns : (expanduser env (configuredOf cli)).data.contains '/' = false)
    (hwhich : firstWhich env (candidateNames (expanduser env (configuredOf cli))) = none)
    (hne : nvmHits env (candidateNames (expanduser env (configuredOf cli))) ≠ []) :
    (∃ best pre post,
      nvmHits env (candidateNames (expanduser env (configuredOf cli))) = pre ++ best :: post
      ∧ _resolve_cli env cli =
          { path := best.2, found := true, configured := configuredOf cli }
      ∧ (∀ h ∈ nvmHits env (candidateNames (expanduser env (configuredOf cli))),
          verLe h.1 best.1)
      ∧ (∀ h ∈ pre, verLt h.1 best.1))
    ∧ (∀ s, semverMatch? s = none → _parse_semver_from_nvm_dirname s = (0, 0, 0))
    ∧ (∀ v, verLe (0, 0, 0) v) := by
  refine ⟨?_, ?_, ?_⟩
  · rcases hsort : sortHitsDesc (nvmHits env (candidateNames (expanduser env (configuredOf cli))))
      with _ | ⟨best, rest⟩
    · exact absurd ((sortHitsDesc_nil_iff _).mp hsort) hne
    · obtain ⟨pre, post, hsplit, hmax, hpre⟩ :=
        head_sortHitsDesc _ best (by rw [hsort]; rfl)
      refine ⟨best, pre, post, hsplit, ?_, hmax, hpre⟩
      unfold _resolve_cli
      simp only [hna, hns, hwhich, Bool.false_and, Bool.and_self]
      rw [hsort]
      rfl
  · intro s hs
    unfold _parse_semver_from_nvm_dirname
    rw [hs]
    rfl
  · intro v
    rcases v with ⟨a, b, c⟩
    unfold verLe verLt
    dsimp only
    omega

/-- C6 witness: on a machine with clawdbot installed under nvm directories
v1.2.3, current and v10.0.0, resolution picks the v10.0.0 binary. -/
theorem c6_nvm_greatest_version_witness :
    (∃ best pre post,
      nvmHits nvmEnv (candidateNames (expanduser nvmEnv (configuredOf "clawdbot"))) = pre ++ best :: post
      ∧ _resolve_cli nvmEnv "clawdbot" =
          { path := best.2, found := true, configured := configuredOf "clawdbot" }
      ∧ (∀ h ∈ nvmHits nvmEnv (candidateNames (expanduser nvmEnv (configuredOf "clawdbot"))),
          verLe h.1 best.1)
      ∧ (∀ h ∈ pre, verLt h.1 best.1))
    ∧ (∀ s, semverMatch? s = none → _parse_semver_from_nvm_dirname s = (0, 0, 0))
    ∧ (∀ v, verLe (0, 0, 0) v) :=
  c6_nvm_greatest_version nvmEnv "clawdbot" (by decide) (by decide) rfl (by decide)

/-- C7: an absolute reference (after tilde expansion) resolves to exactly
that path, found being the executable check on that exact path, and the
result is unchanged under any change to PATH, the version-manager state, the
common directories or the terminal settings (everything but the expansion
data and the executable check itself). -/
theorem c7_absolute_path_trusted (env env2 : SysEnv) (cli : String)
    (habs : isabs (expanduser env (configuredOf cli)) = true)
    (hhome : env2.home = env.home) (huser : env2.userHomes = env.userHomes)
    (hexec : env2.isExec = env.isExec) :
    _resolve_cli env cli =
      { path := expanduser env (configuredOf cli),
        found := env.isExec (expanduser env (configuredOf cli)),
        configured := configuredOf cli }
    ∧ _resolve_cli env2 cli = _resolve_cli env cli := by
  have key : ∀ e : SysEnv, e.home = env.home → e.userHomes = env.userHomes →
      e.isExec = env.isExec →
      _resolve_cli e cli =
        { path := expanduser env (configuredOf cli),
          found := env.isExec (expanduser env (configuredOf cli)),
          configured := configuredOf cli } := by
    intro e h1 h2 h3
    have hexp : expanduser e (configuredOf cli) = expanduser env (configuredOf cli) := by
      unfold expanduser
      rw [h1, h2]
    simp only [_resolve_cli]
    rw [hexp, habs, h3]
    simp
  constructor
  · exact key env rfl rfl rfl
  · rw [key env2 hhome huser hexec, key env rfl rfl rfl]

/-- C7 witness: on the empty machine, the absolute reference /opt/bin/tool
resolves to itself with found = false (not executable there). -/
theorem c7_absolute_path_trusted_witness :
    _resolve_cli noCliEnv "/opt/bin/tool" =
      { path := expanduser noCliEnv (configuredOf "/opt/bin/tool"),
        found := noCliEnv.isExec (expanduser noCliEnv (configuredOf "/opt/bin/tool")),
        configured := configuredOf "/opt/bin/tool" }
    ∧ _resolve_cli noCliEnv "/opt/bin/tool" = _resolve_cli noCliEnv "/opt/bin/tool" :=
  c7_absolute_path_trusted noCliEnv noCliEnv "/opt/bin/tool" (by decide) rfl rfl rfl

/-- C1 (code bug): the source's comment says to prefer structured per-channel
fields and parse channelSummary only otherwise, but the channelSummary pass
reassigns a channel state unconditionally: with channels resolving telegram
to DOWN, adding a channelSummary line "Telegram: up" flips the summary to TG
OK (second conjunct shows the structured record alone yields TG DOWN); and a
linkChannel with linked=true likewise flips a whatsapp resolved to DOWN into
OK. -/
theorem c1_later_shape_overwrites_resolved_state :
    summarizeJson (.obj [("gateway", .obj [("state", .str "ok")]),
      ("channels", .arr [.obj [("channel", .str "telegram"), ("state", .str "down")]]),
      ("channelSummary", .arr [.str "Telegram: up"])]) = "Gateway OK · TG OK · WA ?"
    ∧ summarizeJson (.obj [("gateway", .obj [("state", .str "ok")]),
        ("channels", .arr [.obj [("channel", .str "telegram"), ("state", .str "down")]])])
        = "Gateway OK · TG DOWN · WA ?"
    ∧ summarizeJson (.obj [("gateway", .obj [("state", .str "ok")]),
        ("channels", .arr [.obj [("channel", .str "whatsapp"), ("state", .str "down")]]),
        ("linkChannel", .obj [("id", .str "whatsapp"), ("linked", .bool true)])])
        = "Gateway OK · TG ? · WA OK" := by
  refine ⟨?_, ?_, ?_⟩ <;> decide

/-- C2 counterexample: on the spec's plain-text input the fallback parser
does NOT normalize telegram's UP to OK — it uppercases the raw token
verbatim — so the claimed equivalent summary "gateway OK, telegram OK,
whatsapp DOWN, sessions 2" is not what summarize produces. -/
theorem c2_fallback_not_normalized_counterexample :
    summarizeText c2Text = "Gateway OK · TG UP · WA DOWN · Sessions 2"
    ∧ summarizeText c2Text ≠ "Gateway OK · TG OK · WA DOWN · Sessions 2" := by
  refine ⟨?_, ?_⟩ <;> decide

/-- C2 as amended: on the structured worked example the summary is
"Gateway OK · TG OK · WA DOWN · Sessions 3"; on the plain-text input with
no structured form available the fallback yields gateway OK, whatsapp DOWN
and sessions 2, but reports telegram as the verbatim uppercased token UP
(the Label: value fallback does not apply the OK/DOWN vocabulary). -/
theorem c2_structured_and_fallback_summaries :
    _status_summary
        { path := "/usr/local/bin/clawdbot", found := true, configured := "clawdbot" }
        c2StructWorld
      = "Gateway OK · TG OK · WA DOWN · Sessions 3"
    ∧ _status_summary
        { path := "/usr/local/bin/clawdbot", found := true, configured := "clawdbot" }
        c2TextWorld
      = "Gateway OK · TG UP · WA DOWN · Sessions 2" := by
  refine ⟨?_, ?_⟩ <;> decide

/-- C3 (code bug): when resolution failed, `_status_summary` returns —
without invoking anything (the result is the same in every world) — one
fixed message that instructs the user to fix the configuration but names
only the default "clawdbot", never the configured reference: for the
configured reference "mycli" the message does not contain it. -/
theorem c3_not_found_message_is_fixed :
    (∀ (w : CliWorld) (p c : String),
      _status_summary { path := p, found := false, configured := c } w
        = "CLI not found (clawdbot). Set 'cli' in ~/.config/claw-runner/config.json")
    ∧ containsSubstring
        "CLI not found (clawdbot). Set 'cli' in ~/.config/claw-runner/config.json"
        "mycli" = false := by
  constructor
  · intro w p c
    rfl
  · decide

/-- C4 (code bug): a reference containing a slash but not absolute is
resolved by Path.resolve against the CURRENT WORKING DIRECTORY, not the home
directory: on a machine with home /home/u and cwd /work, "bin/tool" resolves
to /work/bin/tool (with found the executable check on that path), which is
not the home-relative /home/u/bin/tool the spec (and the source's own
comment) describe. -/
theorem c4_slash_reference_uses_cwd :
    _resolve_cli noCliEnv "bin/tool"
      = { path := "/work/bin/tool", found := false, configured := "bin/tool" }
    ∧ noCliEnv.home = "/home/u"
    ∧ noCliEnv.cwd = "/work"
    ∧ ("/work/bin/tool" : String) ≠ "/home/u/bin/tool" := by
  refine ⟨?_, ?_, ?_, ?_⟩ <;> decide

/-- C5 counterexample: configuredAs is NOT the original input verbatim — the
input is stripped first: resolving " mycli " (not found anywhere) carries
configured "mycli", not " mycli ". -/
theorem c5_configured_is_stripped_counterexample :
    _resolve_cli noCliEnv " mycli "
      = { path := "mycli", found := false, configured := "mycli" }
    ∧ (_resolve_cli noCliEnv " mycli ").configured ≠ " mycli " := by
  refine ⟨?_, ?_⟩ <;> decide

/-- C5 as amended: a bare name found neither on PATH, nor under the nvm
root, nor in the common directories resolves without failure to found=false
with the primary candidate name as the path and configuredAs the original
input stripped of surrounding whitespace (the default "clawdbot" when the
input is blank). -/
theorem c5_bare_name_not_found (env : SysEnv) (cli : String)
    (hna : isabs (expanduser env (configuredOf cli)) = false)
    (hns : (expanduser env (configuredOf cli)).data.contains '/' = false)
    (hwhich : firstWhich env (candidateNames (expanduser env (configuredOf cli))) = none)
    (hnvm : nvmHits env (candidateNames (expanduser env (configuredOf cli))) = [])
    (hcommon : commonHit env (candidateNames (expanduser env (configuredOf cli))) = none) :
    _resolve_cli env cli =
      { path := expanduser env (configuredOf cli), found := false,
        configured := if pyStrip cli = "" then "clawdbot" else pyStrip cli } := by
  unfold _resolve_cli
  simp only [hna, hns, hwhich, hnvm, Bool.false_and, Bool.and_self, sortHitsDesc, List.head?]
  rw [hcommon]
  rfl

/-- C5 witness: the amended statement at the empty machine and the bare
reference "ghosttool". -/
theorem c5_bare_name_not_found_witness :
    _resolve_cli noCliEnv "ghosttool" =
      { path := expanduser noCliEnv (configuredOf "ghosttool"), found := false,
        configured := if pyStrip "ghosttool" = "" then "clawdbot" else pyStrip "ghosttool" } :=
  c5_bare_name_not_found noCliEnv "ghosttool" (by decide) (by decide) rfl (by decide) rfl

/-- C8: with "kitty" configured, the synthesized argv is exactly kitty, the
--hold flag, then the sh -lc invocation of echo hi (the hold flag keeps the
window open); with nothing configured, an empty TERMINAL variable and no
terminal on the system, synthesis yields the empty argv — the representable
none outcome, not an error. -/
theorem c8_kitty_argv_and_none_outcome (env : SysEnv)
    (hvar : pyStrip env.terminalVar = "")
    (hwhich : ∀ n, env.which n = none) :
    _terminal_argv (_resolve_terminal env "kitty") "echo hi"
      = ["kitty", "--hold", "sh", "-lc", "echo hi"]
    ∧ _terminal_argv (_resolve_terminal env "") "echo hi" = [] := by
  constructor
  · have h : _resolve_terminal env "kitty" = "kitty" := by
      unfold _resolve_terminal
      rw [if_pos (by decide)]
      decide
    rw [h]
    decide
  · have h : _resolve_terminal env "" = "" := by
      simp only [_resolve_terminal, hvar]
      rw [if_neg (by decide), if_neg (by decide)]
      simp [firstWhichName, hwhich]
    rw [h]
    decide

/-- C8 witness: the same on the concrete empty machine. -/
theorem c8_kitty_argv_and_none_outcome_witness :
    _terminal_argv (_resolve_terminal noCliEnv "kitty") "echo hi"
      = ["kitty", "--hold", "sh", "-lc", "echo hi"]
    ∧ _terminal_argv (_resolve_terminal noCliEnv "") "echo hi" = [] :=
  c8_kitty_argv_and_none_outcome noCliEnv (by decide) (fun n => rfl)

/-- C9 counterexample: the timeout outcome is NOT distinguishable from every
nonzero program exit — a program that itself exits 124 with empty stdout and
stderr "Timed out" produces the very same (returncode, stdout, stderr)
triple as a timeout, so a caller cannot render different messages for the
two cases. -/
theorem c9_timeout_collides_with_exit_124 :
    _run (RunOutcome.completed 124 "" "Timed out") = _run (RunOutcome.timedOut none none)
    ∧ (124 : Int) ≠ 0 := by
  refine ⟨?_, ?_⟩ <;> decide

/-- C9 as amended: every `_run` call site passes an explicit positive
single-digit-second timeout; a timeout maps to sentinel code 124, a spawn
failure to sentinel code 127; the two sentinels differ, and a completed run
is distinguishable from a timeout (resp. a spawn failure) whenever the
program's own exit code is not 124 (resp. 127) — the collision at exactly
those codes is what the counterexample exhibits. -/
theorem c9_run_sentinel_codes :
    (∀ t ∈ runTimeouts, 0 < t ∧ t < 10)
    ∧ (∀ o e, (_run (RunOutcome.timedOut o e)).1 = 124)
    ∧ (∀ m, (_run (RunOutcome.spawnFailure m)).1 = 127)
    ∧ (∀ rc out err o e, rc ≠ 124 →
        _run (RunOutcome.completed rc out err) ≠ _run (RunOutcome.timedOut o e))
    ∧ (∀ rc out err m, rc ≠ 127 →
        _run (RunOutcome.completed rc out err) ≠ _run (RunOutcome.spawnFailure m))
    ∧ (∀ o e m, (_run (RunOutcome.timedOut o e)).1 ≠ (_run (RunOutcome.spawnFailure m)).1) := by
  refine ⟨?_, ?_, ?_, ?_, ?_, ?_⟩
  · intro t ht
    fin_cases ht <;> norm_num
  · intro o e
    rfl
  · intro m
    rfl
  · intro rc out err o e h hc
    exact h (by simpa using congrArg (fun x => x.1) hc)
  · intro rc out err m h hc
    exact h (by simpa using congrArg (fun x => x.1) hc)
  · intro o e m
    simp [_run]

/-! ## Helper lemmas for the configuration loader -/

/-- setDashboard leaves the cli field unchanged. -/
theorem setDashboard_preserves_cli (v : Option JsonVal) (cfg : Config) :
    (setDashboard v cfg).cli = cfg.cli := by
  unfold setDashboard
  cases v with
  | none => rfl
  | some j =>
    cases j with
    | null => rfl
    | bool b => rfl
    | num n => rfl
    | str s =>
      by_cases h : pyStrip s ≠ ""
      · simp only [if_pos h]
      · simp only [if_neg h]
    | arr l => rfl
    | obj l => rfl

/-- setDashboard leaves the gateway_service field unchanged. -/
theorem setDashboard_preserves_gateway_service (v : Option JsonVal) (cfg : Config) :
    (setDashboard v cfg).gateway_service = cfg.gateway_service := by
  unfold setDashboard
  cases v with
  | none => rfl
  | some j =>
    cases j with
    | null => rfl
    | bool b => rfl
    | num n => rfl
    | str s =>
      by_cases h : pyStrip s ≠ ""
      · simp only [if_pos h]
      · simp only [if_neg h]
    | arr l => rfl
    | obj l => rfl

/-- setDashboard leaves the daemon_service field unchanged. -/
theorem setDashboard_preserves_daemon_service (v : Option JsonVal) (cfg : Config) :
    (setDashboard v cfg).daemon_service = cfg.daemon_service := by
  unfold setDashboard
  cases v with
  | none => rfl
  | some j =>
    cases j with
    | null => rfl
    | bool b => rfl
    | num n => rfl
    | str s =>
      by_cases h : pyStrip s ≠ ""
      · simp only [if_pos h]
      · simp only [if_neg h]
    | arr l => rfl
    | obj l => rfl

/-- setDashboard leaves the terminal field unchanged. -/
theorem setDashboard_preserves_terminal (v : Option JsonVal) (cfg : Config) :
    (setDashboard v cfg).terminal = cfg.terminal := by
  unfold setDashboard
  cases v with
  | none => rfl
  | some j =>
    cases j with
    | null => rfl
    | bool b => rfl
    | num n => rfl
    | str s =>
      by_cases h : pyStrip s ≠ ""
      · simp only [if_pos h]
      · simp only [if_neg h]
    | arr l => rfl
    | obj l => rfl

/-- setCli leaves the dashboard_url field unchanged. -/
theorem setCli_preserves_dashboard_url (v : Option JsonVal) (cfg : Config) :
    (setCli v cfg).dashboard_url = cfg.dashboard_url := by
  unfold setCli
  cases v with
  | none => rfl
  | some j =>
    cases j with
    | null => rfl
    | bool b => rfl
    | num n => rfl
    | str s =>
      by_cases h : pyStrip s ≠ ""
      · simp only [if_pos h]
      · simp only [if_neg h]
    | arr l => rfl
    | obj l => rfl

/-- setCli leaves the gateway_service field unchanged. -/
theorem setCli_preserves_gateway_service (v : Option JsonVal) (cfg : Config) :
    (setCli v cfg).gateway_service = cfg.gateway_service := by
  unfold setCli
  cases v with
  | none => rfl
  | some j =>
    cases j with
    | null => rfl
    | bool b => rfl
    | num n => rfl
    | str s =>
      by_cases h : pyStrip s ≠ ""
      · simp only [if_pos h]
      · simp only [if_neg h]
    | arr l => rfl
    | obj l => rfl

/-- setCli leaves the daemon_service field unchanged. -/
theorem setCli_preserves_daemon_service (v : Option JsonVal) (cfg : Config) :
    (setCli v cfg).daemon_service = cfg.daemon_service := by
  unfold setCli
  cases v with
  | none => rfl
  | some j =>
    cases j with
    | null => rfl
    | bool b => rfl
    | num n => rfl
    | str s =>
      by_cases h : pyStrip s ≠ ""
      · simp only [if_pos h]
      · simp only [if_neg h]
    | arr l => rfl
    | obj l => rfl

/-- setCli leaves the terminal field unchanged. -/
theorem setCli_preserves_terminal (v : Option JsonVal) (cfg : Config) :
    (setCli v cfg).terminal = cfg.terminal := by
  unfold setCli
  cases v with
  | none => rfl
  | some j =>
    cases j with
    | null => rfl
    | bool b => rfl
    | num n => rfl
    | str s =>
      by_cases h : pyStrip s ≠ ""
      · simp only [if_pos h]
      · simp only [if_neg h]
    | arr l => rfl
    | obj l => rfl

/-- setGateway leaves the dashboard_url field unchanged. -/
theorem setGateway_preserves_dashboard_url (v : Option JsonVal) (cfg : Config) :
    (setGateway v cfg).dashboard_url = cfg.dashboard_url := by
  unfold setGateway
  cases v with
  | none => rfl
  | some j =>
    cases j with
    | null => rfl
    | bool b => rfl
    | num n => rfl
    | str s =>
      by_cases h : pyStrip s ≠ ""
      · simp only [if_pos h]
      · simp only [if_neg h]
    | arr l => rfl
    | obj l => rfl

/-- setGateway leaves the cli field unchanged. -/
theorem setGateway_preserves_cli (v : Option JsonVal) (cfg : Config) :
    (setGateway v cfg).cli = cfg.cli := by
  unfold setGateway
  cases v with
  | none => rfl
  | some j =>
    cases j with
    | null => rfl
    | bool b => rfl
    | num n => rfl
    | str s =>
      by_cases h : pyStrip s ≠ ""
      · simp only [if_pos h]
      · simp only [if_neg h]
    | arr l => rfl
    | obj l => rfl

/-- setGateway leaves the daemon_service field unchanged. -/
theorem setGateway_preserves_daemon_service (v : Option JsonVal) (cfg : Config) :
    (setGateway v cfg).daemon_service = cfg.daemon_service := by
  unfold setGateway
  cases v with
  | none => rfl
  | some j =>
    cases j with
    | null => rfl
    | bool b => rfl
    | num n => rfl
    | str s =>
      by_cases h : pyStrip s ≠ ""
      · simp only [if_pos h]
      · simp only [if_neg h]
    | arr l => rfl
    | obj l => rfl

/-- setGateway leaves the terminal field unchanged. -/
theorem setGateway_preserves_terminal (v : Option JsonVal) (cfg : Config) :
    (setGateway v cfg).terminal = cfg.terminal := by
  unfold setGateway
  cases v with
  | none => rfl
  | some j =>
    cases j with
    | null => rfl
    | bool b => rfl
    | num n => rfl
    | str s =>
      by_cases h : pyStrip s ≠ ""
      · simp only [if_pos h]
      · simp only [if_neg h]
    | arr l => rfl
    | obj l => rfl

/-- setDaemon leaves the dashboard_url field unchanged. -/
theorem setDaemon_preserves_dashboard_url (v : Option JsonVal) (cfg : Config) :
    (setDaemon v cfg).dashboard_url = cfg.dashboard_url := by
  unfold setDaemon
  cases v with
  | none => rfl
  | some j =>
    cases j with
    | null => rfl
    | bool b => rfl
    | num n => rfl
    | str s =>
      by_cases h : pyStrip s ≠ ""
      · simp only [if_pos h]
      · simp only [if_neg h]
    | arr l => rfl
    | obj l => rfl

/-- setDaemon leaves the cli field unchanged. -/
theorem setDaemon_preserves_cli (v : Option JsonVal) (cfg : Config) :
    (setDaemon v cfg).cli = cfg.cli := by
  unfold setDaemon
  cases v with
  | none => rfl
  | some j =>
    cases j with
    | null => rfl
    | bool b => rfl
    | num n => rfl
    | str s =>
      by_cases h : pyStrip s ≠ ""
      · simp only [if_pos h]
      · simp only [if_neg h]
    | arr l => rfl
    | obj l => rfl

/-- setDaemon leaves the gateway_service field unchanged. -/
theorem setDaemon_preserves_gateway_service (v : Option JsonVal) (cfg : Config) :
    (setDaemon v cfg).gateway_service = cfg.gateway_service := by
  unfold setDaemon
  cases v with
  | none => rfl
  | some j =>
    cases j with
    | null => rfl
    | bool b => rfl
    | num n => rfl
    | str s =>
      by_cases h : pyStrip s ≠ ""
      · simp only [if_pos h]
      · simp only [if_neg h]
    | arr l => rfl
    | obj l => rfl

/-- setDaemon leaves the terminal field unchanged. -/
theorem setDaemon_preserves_terminal (v : Option JsonVal) (cfg : Config) :
    (setDaemon v cfg).terminal = cfg.terminal := by
  unfold setDaemon
  cases v with
  | none => rfl
  | some j =>
    cases j with
    | null => rfl
    | bool b => rfl
    | num n => rfl
    | str s =>
      by_cases h : pyStrip s ≠ ""
      · simp only [if_pos h]
      · simp only [if_neg h]
    | arr l => rfl
    | obj l => rfl

/-- setTerminal leaves the dashboard_url field unchanged. -/
theorem setTerminal_preserves_dashboard_url (v : Option JsonVal) (cfg : Config) :
    (setTerminal v cfg).dashboard_url = cfg.dashboard_url := by
  unfold setTerminal
  cases v with
  | none => rfl
  | some j =>
    cases j with
    | null => rfl
    | bool b => rfl
    | num n => rfl
    | str s =>
      by_cases h : pyStrip s ≠ ""
      · simp only [if_pos h]
      · simp only [if_neg h]
    | arr l => rfl
    | obj l => rfl

/-- setTerminal leaves the cli field unchanged. -/
theorem setTerminal_preserves_cli (v : Option JsonVal) (cfg : Config) :
    (setTerminal v cfg).cli = cfg.cli := by
  unfold setTerminal
  cases v with
  | none => rfl
  | some j =>
    cases j with
    | null => rfl
    | bool b => rfl
    | num n => rfl
    | str s =>
      by_cases h : pyStrip s ≠ ""
      · simp only [if_pos h]
      · simp only [if_neg h]
    | arr l => rfl
    | obj l => rfl

/-- setTerminal leaves the gateway_service field unchanged. -/
theorem setTerminal_preserves_gateway_service (v : Option JsonVal) (cfg : Config) :
    (setTerminal v cfg).gateway_service = cfg.gateway_service := by
  unfold setTerminal
  cases v with
  | none => rfl
  | some j =>
    cases j with
    | null => rfl
    | bool b => rfl
    | num n => rfl
    | str s =>
      by_cases h : pyStrip s ≠ ""
      · simp only [if_pos h]
      · simp only [if_neg h]
    | arr l => rfl
    | obj l => rfl

/-- setTerminal leaves the daemon_service field unchanged. -/
theorem setTerminal_preserves_daemon_service (v : Option JsonVal) (cfg : Config) :
    (setTerminal v cfg).daemon_service = cfg.daemon_service := by
  unfold setTerminal
  cases v with
  | none => rfl
  | some j =>
    cases j with
    | null => rfl
    | bool b => rfl
    | num n => rfl
    | str s =>
      by_cases h : pyStrip s ≠ ""
      · simp only [if_pos h]
      · simp only [if_neg h]
    | arr l => rfl
    | obj l => rfl

/-- setDashboard writes the dashboard_url field exactly when the picked value is a non-blank
string. -/
theorem setDashboard_sets_dashboard_url (v : Option JsonVal) (cfg : Config) :
    (setDashboard v cfg).dashboard_url = (match v with
      | some (JsonVal.str s) => if pyStrip s ≠ "" then pyStrip s else cfg.dashboard_url
      | _ => cfg.dashboard_url) := by
  unfold setDashboard
  cases v with
  | none => rfl
  | some j =>
    cases j with
    | null => rfl
    | bool b => rfl
    | num n => rfl
    | str s =>
      by_cases h : pyStrip s ≠ ""
      · simp only [if_pos h]
      · simp only [if_neg h]
    | arr l => rfl
    | obj l => rfl

/-- setCli writes the cli field exactly when the picked value is a non-blank
string. -/
theorem setCli_sets_cli (v : Option JsonVal) (cfg : Config) :
    (setCli v cfg).cli = (match v with
      | some (JsonVal.str s) => if pyStrip s ≠ "" then pyStrip s else cfg.cli
      | _ => cfg.cli) := by
  unfold setCli
  cases v with
  | none => rfl
  | some j =>
    cases j with
    | null => rfl
    | bool b => rfl
    | num n => rfl
    | str s =>
      by_cases h : pyStrip s ≠ ""
      · simp only [if_pos h]
      · simp only [if_neg h]
    | arr l => rfl
    | obj l => rfl

/-- setGateway writes the gateway_service field exactly when the picked value is a non-blank
string. -/
theorem setGateway_sets_gateway_service (v : Option JsonVal) (cfg : Config) :
    (setGateway v cfg).gateway_service = (match v with
      | some (JsonVal.str s) => if pyStrip s ≠ "" then pyStrip s else cfg.gateway_service
      | _ => cfg.gateway_service) := by
  unfold setGateway
  cases v with
  | none => rfl
  | some j =>
    cases j with
    | null => rfl
    | bool b => rfl
    | num n => rfl
    | str s =>
      by_cases h : pyStrip s ≠ ""
      · simp only [if_pos h]
      · simp only [if_neg h]
    | arr l => rfl
    | obj l => rfl

/-- setDaemon writes the daemon_service field exactly when the picked value is a non-blank
string. -/
theorem setDaemon_sets_daemon_service (v : Option JsonVal) (cfg : Config) :
    (setDaemon v cfg).daemon_service = (match v with
      | some (JsonVal.str s) => if pyStrip s ≠ "" then pyStrip s else cfg.daemon_service
      | _ => cfg.daemon_service) := by
  unfold setDaemon
  cases v with
  | none => rfl
  | some j =>
    cases j with
    | null => rfl
    | bool b => rfl
    | num n => rfl
    | str s =>
      by_cases h : pyStrip s ≠ ""
      · simp only [if_pos h]
      · simp only [if_neg h]
    | arr l => rfl
    | obj l => rfl

/-- setTerminal writes the terminal field exactly when the picked value is a non-blank
string. -/
theorem setTerminal_sets_terminal (v : Option JsonVal) (cfg : Config) :
    (setTerminal v cfg).terminal = (match v with
      | some (JsonVal.str s) => if pyStrip s ≠ "" then pyStrip s else cfg.terminal
      | _ => cfg.terminal) := by
  unfold setTerminal
  cases v with
  | none => rfl
  | some j =>
    cases j with
    | null => rfl
    | bool b => rfl
    | num n => rfl
    | str s =>
      by_cases h : pyStrip s ≠ ""
      · simp only [if_pos h]
      · simp only [if_neg h]
    | arr l => rfl
    | obj l => rfl

/-- getKey? misses on every non-object value. -/
theorem getKey?_nonobj (data : JsonVal) (k : String)
    (h : ∀ fields, data ≠ JsonVal.obj fields) : data.getKey? k = none := by
  cases data with
  | obj fields => exact absurd rfl (h fields)
  | null => rfl
  | bool b => rfl
  | num n => rfl
  | str s => rfl
  | arr l => rfl

/-- pick misses on every non-object value. -/
theorem pick_nonobj (data : JsonVal) (keys : List String)
    (h : ∀ fields, data ≠ JsonVal.obj fields) : pick data keys = none := by
  induction keys with
  | nil => rfl
  | cons k ks ih => simp [pick, getKey?_nonobj data k h, ih]

/-- The dashboard_url field of a loaded configuration, as a function of what
pick found. -/
theorem load_config_dashboard (data : JsonVal) :
    (load_config (ConfigSource.parsed data)).dashboard_url
      = (match pick data ["dashboardUrl", "dashboard_url"] with
        | some (JsonVal.str s) => if pyStrip s ≠ "" then pyStrip s else "http://127.0.0.1:18789/"
        | _ => "http://127.0.0.1:18789/") := by
  cases data with
  | obj fields =>
    show (setTerminal _ (setDaemon _ (setGateway _ (setCli _ (setDashboard _ {}))))).dashboard_url = _
    simp only [setTerminal_preserves_dashboard_url, setDaemon_preserves_dashboard_url,
      setGateway_preserves_dashboard_url, setCli_preserves_dashboard_url,
      setDashboard_sets_dashboard_url]
  | null => rw [pick_nonobj _ _ (fun fields h => JsonVal.noConfusion h)]; rfl
  | bool b => rw [pick_nonobj _ _ (fun fields h => JsonVal.noConfusion h)]; rfl
  | num n => rw [pick_nonobj _ _ (fun fields h => JsonVal.noConfusion h)]; rfl
  | str s => rw [pick_nonobj _ _ (fun fields h => JsonVal.noConfusion h)]; rfl
  | arr l => rw [pick_nonobj _ _ (fun fields h => JsonVal.noConfusion h)]; rfl

/-- The cli field of a loaded configuration, as a function of what pick
found. -/
theorem load_config_cli (data : JsonVal) :
    (load_config (ConfigSource.parsed data)).cli
      = (match pick data ["cli", "binary", "command"] with
        | some (JsonVal.str s) => if pyStrip s ≠ "" then pyStrip s else "clawdbot"
        | _ => "clawdbot") := by
  cases data with
  | obj fields =>
    show (setTerminal _ (setDaemon _ (setGateway _ (setCli _ (setDashboard _ {}))))).cli = _
    simp only [setTerminal_preserves_cli, setDaemon_preserves_cli,
      setGateway_preserves_cli, setCli_sets_cli, setDashboard_preserves_cli]
  | null => rw [pick_nonobj _ _ (fun fields h => JsonVal.noConfusion h)]; rfl
  | bool b => rw [pick_nonobj _ _ (fun fields h => JsonVal.noConfusion h)]; rfl
  | num n => rw [pick_nonobj _ _ (fun fields h => JsonVal.noConfusion h)]; rfl
  | str s => rw [pick_nonobj _ _ (fun fields h => JsonVal.noConfusion h)]; rfl
  | arr l => rw [pick_nonobj _ _ (fun fields h => JsonVal.noConfusion h)]; rfl

/-- The gateway_service field of a loaded configuration. -/
theorem load_config_gateway (data : JsonVal) :
    (load_config (ConfigSource.parsed data)).gateway_service
      = (match pick data ["gatewayService", "gateway_service"] with
        | some (JsonVal.str s) => if pyStrip s ≠ "" then pyStrip s else "clawdbot-gateway.service"
        | _ => "clawdbot-gateway.service") := by
  cases data with
  | obj fields =>
    show (setTerminal _ (setDaemon _ (setGateway _ (setCli _ (setDashboard _ {}))))).gateway_service = _
    simp only [setTerminal_preserves_gateway_service, setDaemon_preserves_gateway_service,
      setGateway_sets_gateway_service, setCli_preserves_gateway_service,
      setDashboard_preserves_gateway_service]
  | null => rw [pick_nonobj _ _ (fun fields h => JsonVal.noConfusion h)]; rfl
  | bool b => rw [pick_nonobj _ _ (fun fields h => JsonVal.noConfusion h)]; rfl
  | num n => rw [pick_nonobj _ _ (fun fields h => JsonVal.noConfusion h)]; rfl
  | str s => rw [pick_nonobj _ _ (fun fields h => JsonVal.noConfusion h)]; rfl
  | arr l => rw [pick_nonobj _ _ (fun fields h => JsonVal.noConfusion h)]; rfl

/-- The daemon_service field of a loaded configuration. -/
theorem load_config_daemon (data : JsonVal) :
    (load_config (ConfigSource.parsed data)).daemon_service
      = (match pick data ["daemonService", "daemon_service"] with
        | some (JsonVal.str s) => if pyStrip s ≠ "" then pyStrip s else "clawdbot-browser.service"
        | _ => "clawdbot-browser.service") := by
  cases data with
  | obj fields =>
    show (setTerminal _ (setDaemon _ (setGateway _ (setCli _ (setDashboard _ {}))))).daemon_service = _
    simp only [setTerminal_preserves_daemon_service, setDaemon_sets_daemon_service,
      setGateway_preserves_daemon_service, setCli_preserves_daemon_service,
      setDashboard_preserves_daemon_service]
  | null => rw [pick_nonobj _ _ (fun fields h => JsonVal.noConfusion h)]; rfl
  | bool b => rw [pick_nonobj _ _ (fun fields h => JsonVal.noConfusion h)]; rfl
  | num n => rw [pick_nonobj _ _ (fun fields h => JsonVal.noConfusion h)]; rfl
  | str s => rw [pick_nonobj _ _ (fun fields h => JsonVal.noConfusion h)]; rfl
  | arr l => rw [pick_nonobj _ _ (fun fields h => JsonVal.noConfusion h)]; rfl

/-- The terminal field of a loaded configuration. -/
theorem load_config_terminal (data : JsonVal) :
    (load_config (ConfigSource.parsed data)).terminal
      = (match pick data ["terminal"] with
        | some (JsonVal.str s) => if pyStrip s ≠ "" then pyStrip s else ""
        | _ => "") := by
  cases data with
  | obj fields =>
    show (setTerminal _ (setDaemon _ (setGateway _ (setCli _ (setDashboard _ {}))))).terminal = _
    simp only [setTerminal_sets_terminal, setDaemon_preserves_terminal,
      setGateway_preserves_terminal, setCli_preserves_terminal,
      setDashboard_preserves_terminal]
  | null => rw [pick_nonobj _ _ (fun fields h => JsonVal.noConfusion h)]; rfl
  | bool b => rw [pick_nonobj _ _ (fun fields h => JsonVal.noConfusion h)]; rfl
  | num n => rw [pick_nonobj _ _ (fun fields h => JsonVal.noConfusion h)]; rfl
  | str s => rw [pick_nonobj _ _ (fun fields h => JsonVal.noConfusion h)]; rfl
  | arr l => rw [pick_nonobj _ _ (fun fields h => JsonVal.noConfusion h)]; rfl

/-- A result equal to the field-wise match satisfies the claim-side
fieldFromFile reading. -/
theorem fieldFromFile_of_match (picked : Option JsonVal) (dflt res : String)
    (hres : res = (match picked with
      | some (JsonVal.str s) => if pyStrip s ≠ "" then pyStrip s else dflt
      | _ => dflt)) :
    fieldFromFile picked dflt res := by
  rcases hp : picked with _ | j
  · subst hp
    exact Or.inr ⟨hres, fun s h => Option.noConfusion h⟩
  · subst hp
    cases j with
    | str s =>
      by_cases h : pyStrip s ≠ ""
      · refine Or.inl ⟨s, rfl, h, ?_⟩
        simpa [h] using hres
      · have h0 : pyStrip s = "" := not_not.mp h
        refine Or.inr ⟨by simpa [h0] using hres, ?_⟩
        intro t ht
        obtain rfl : s = t := by
          injection ht with ht1
          injection ht1
        exact h0
    | null => exact Or.inr ⟨hres, fun t ht => by injection ht with ht1; exact JsonVal.noConfusion ht1⟩
    | bool b => exact Or.inr ⟨hres, fun t ht => by injection ht with ht1; exact JsonVal.noConfusion ht1⟩
    | num n => exact Or.inr ⟨hres, fun t ht => by injection ht with ht1; exact JsonVal.noConfusion ht1⟩
    | arr l => exact Or.inr ⟨hres, fun t ht => by injection ht with ht1; exact JsonVal.noConfusion ht1⟩
    | obj l => exact Or.inr ⟨hres, fun t ht => by injection ht with ht1; exact JsonVal.noConfusion ht1⟩

/-- C10: loading the configuration is total over every file state — absent,
unreadable or unparseable input and any non-object payload all yield the
all-defaults Config — and on an object payload each individual field takes
the file's (first-present among its alternative key spellings) value exactly
when that value is a non-blank string, as its stripped form, and otherwise
keeps its built-in default. -/
theorem c10_load_config_total_and_fieldwise :
    (load_config ConfigSource.absent = {}
      ∧ load_config ConfigSource.readOrParseFailure = {}
      ∧ ∀ data : JsonVal, (∀ fields, data ≠ JsonVal.obj fields) →
          load_config (ConfigSource.parsed data) = {})
    ∧ ∀ data : JsonVal,
        fieldFromFile (pick data ["dashboardUrl", "dashboard_url"])
          "http://127.0.0.1:18789/" (load_config (ConfigSource.parsed data)).dashboard_url
        ∧ fieldFromFile (pick data ["cli", "binary", "command"])
          "clawdbot" (load_config (ConfigSource.parsed data)).cli
        ∧ fieldFromFile (pick data ["gatewayService", "gateway_service"])
          "clawdbot-gateway.service" (load_config (ConfigSource.parsed data)).gateway_service
        ∧ fieldFromFile (pick data ["daemonService", "daemon_service"])
          "clawdbot-browser.service" (load_config (ConfigSource.parsed data)).daemon_service
        ∧ fieldFromFile (pick data ["terminal"]) ""
          (load_config (ConfigSource.parsed data)).terminal := by
  constructor
  · refine ⟨rfl, rfl, ?_⟩
    intro data h
    cases data with
    | obj fields => exact absurd rfl (h fields)
    | null => rfl
    | bool b => rfl
    | num n => rfl
    | str s => rfl
    | arr l => rfl
  · intro data
    exact ⟨fieldFromFile_of_match _ _ _ (load_config_dashboard data),
      fieldFromFile_of_match _ _ _ (load_config_cli data),
      fieldFromFile_of_match _ _ _ (load_config_gateway data),
      fieldFromFile_of_match _ _ _ (load_config_daemon data),
      fieldFromFile_of_match _ _ _ (load_config_terminal data)⟩

end ClawRunner
